import Mathlib

/-!
Shallow embedding of the JVL MAC400 register/codec module (`mac400.py`).

Machine integers are modelled as `Nat`/`Int` with explicit range conditions:
`struct.pack`/`struct.unpack` over the patterns `'<L'` (unsigned 32-bit),
`'<l'` (signed 32-bit) and `'<HH'` (two unsigned 16-bit words) become pure
functions on `Nat`/`Int`, raising (`Except.error`) exactly where the Python
code raises.  Python floats in the scaled codecs are modelled as exact
rationals (`Rat`); the scale constants are the source's decimal literals as
exact rationals, stored in reduced `Rat.mk'` form (proved equal to the decimal
literals in `factor_literals` below).  Python's per-register `decode`/`encode` closures are modelled
as a tagged `Codec` and a dispatch function, one tag per closure shape that
occurs in the source.
-/

set_option maxRecDepth 4000

namespace Mac400

/-- Decidable equality for `Except`, used to evaluate the embedded fallible
operations on concrete inputs. -/
instance {ε α : Type} [DecidableEq ε] [DecidableEq α] : DecidableEq (Except ε α) := fun a b =>
  match a, b with
  | .ok x, .ok y => decidable_of_iff (x = y) (by simp)
  | .ok _, .error _ => isFalse (fun h => Except.noConfusion h)
  | .error _, .ok _ => isFalse (fun h => Except.noConfusion h)
  | .error e, .error f => decidable_of_iff (e = f) (by simp)

/-- Python exception kinds raised by the embedded code paths. -/
inductive PyErr where
  | keyError
  | valueError
  | indexError
  | typeError
  | structError
deriving DecidableEq, Repr

/-- `struct.unpack('<L', struct.pack('<HH', lo, hi))`: reassemble an unsigned
32-bit integer from two little-endian unsigned 16-bit words.  Total model;
the Python code raises only when `lo` or `hi` is out of 16-bit range, and all
theorems below stay inside that domain. -/
def unpack_L (lo hi : Nat) : Nat := lo + 65536 * hi

/-- `struct.unpack('<l', struct.pack('<HH', lo, hi))`: reassemble a signed
32-bit integer (two's complement) from two unsigned 16-bit words. -/
def unpack_l (lo hi : Nat) : Int :=
  if lo + 65536 * hi < 2 ^ 31 then ((lo + 65536 * hi : Nat) : Int)
  else ((lo + 65536 * hi : Nat) : Int) - 2 ^ 32

/-- `struct.unpack('<HH', struct.pack('<L', x))`: split an unsigned 32-bit
integer into two unsigned 16-bit words; `struct.error` if out of range. -/
def pack_L (x : Int) : Except PyErr (Nat × Nat) :=
  if 0 ≤ x ∧ x < 2 ^ 32 then .ok (x.toNat % 65536, x.toNat / 65536)
  else .error .structError

/-- `struct.unpack('<HH', struct.pack('<l', x))`: split a signed 32-bit
integer (two's complement) into two unsigned 16-bit words. -/
def pack_l (x : Int) : Except PyErr (Nat × Nat) :=
  if -(2 ^ 31) ≤ x ∧ x < 2 ^ 31 then
    .ok ((x % 2 ^ 32).toNat % 65536, (x % 2 ^ 32).toNat / 65536)
  else .error .structError

/-- `explode_bits(x, n) = [(x >> i) & 1 for i in range(n)]`. -/
def explode_bits (x : Nat) (n : Nat) : List Nat :=
  (List.range n).map fun i => (x >>> i) &&& 1

/-- `implode_bits(bits)`: `functools.reduce(lambda acc, bit: (bit << (n-1)) | (acc >> 1), bits)`
with `n = len(bits)`.  `reduce` without an initializer starts from the first
list element and raises `TypeError` on an empty list (`none` here).  Note the
shift amount is `n - 1 = rest.length` throughout. -/
def implode_bits : List Nat → Option Nat
  | [] => none
  | b :: rest =>
      some (rest.foldl (fun acc bit => (bit <<< rest.length) ||| (acc >>> 1)) b)

/-- The `MODE` enumeration for the MODE_REG register. -/
inductive MODE where
  | PASSIVE
  | VELOCITY
  | POSITION
  | STOP
deriving DecidableEq, Repr

/-- Underlying integer value of each `MODE` member. -/
def MODE.val : MODE → Nat
  | .PASSIVE => 0
  | .VELOCITY => 1
  | .POSITION => 2
  | .STOP => 11

/-- `MODE(n)`: the enum constructor call, which raises `ValueError` when `n`
is not the value of any member. -/
def MODE.ofVal (n : Nat) : Except PyErr MODE :=
  if n = 0 then .ok .PASSIVE
  else if n = 1 then .ok .VELOCITY
  else if n = 2 then .ok .POSITION
  else if n = 11 then .ok .STOP
  else .error .valueError

/-- Python's `int()` applied to a rational: truncation toward zero. -/
def ratTrunc (q : Rat) : Int := if q < 0 then ⌈q⌉ else ⌊q⌋

/-- Modelled from the spec: rounding to the nearest integer, which the spec's
codec table prescribes for scaled encodes (`round(physicalValue * scaleFactor)`).
This is the spec-side definition, to be compared with the source's `int(...)`
truncation. -/
def ratRoundNearest (q : Rat) : Int := ⌊q + 1 / 2⌋

/-- Tagged form of the per-register `decode`/`encode` closure pairs that occur
in the source: default unsigned (`'L'`), signed (`'l'`), the MODE enum codec,
the `ERR_STAT` bit-list codec, and the scaled codecs (decode divides by the
factor and encode multiplies, or, for U_BUS, decode multiplies and encode
divides), over signed or unsigned packing. -/
inductive Codec where
  | rawU
  | rawS
  | mode
  | bitfield
  | scaledDivS (factor : Rat)
  | scaledDivU (factor : Rat)
  | scaledMulU (factor : Rat)
deriving DecidableEq, Repr

/-- Decoded register values: Python ints, floats (as exact rationals), MODE
members, and bit lists. -/
inductive Value where
  | int (i : Int)
  | rat (q : Rat)
  | mode (m : MODE)
  | bitlist (bs : List Nat)
deriving DecidableEq, Repr

/-- Dispatch of the per-register `decode(lo, hi)` closures. -/
def Codec.decode : Codec → Nat → Nat → Except PyErr Value
  | .rawU, lo, hi => .ok (.int (unpack_L lo hi))
  | .rawS, lo, hi => .ok (.int (unpack_l lo hi))
  | .mode, lo, hi =>
      match MODE.ofVal (unpack_L lo hi) with
      | .ok m => .ok (.mode m)
      | .error e => .error e
  | .bitfield, lo, hi => .ok (.bitlist (explode_bits (unpack_L lo hi) 32))
  | .scaledDivS f, lo, hi => .ok (.rat ((unpack_l lo hi : Rat) / f))
  | .scaledDivU f, lo, hi => .ok (.rat ((unpack_L lo hi : Rat) / f))
  | .scaledMulU f, lo, hi => .ok (.rat ((unpack_L lo hi : Rat) * f))

/-- Dispatch of the per-register `encode(x)` closures.  A value of the wrong
shape for the codec is a Python `TypeError`. -/
def Codec.encode : Codec → Value → Except PyErr (Nat × Nat)
  | .rawU, .int x => pack_L x
  | .rawS, .int x => pack_l x
  | .mode, .mode m => pack_L (MODE.val m)
  | .bitfield, .bitlist bs =>
      match implode_bits bs with
      | some v => pack_L v
      | none => .error .typeError
  | .scaledDivS f, .rat q => pack_l (ratTrunc (q * f))
  | .scaledDivU f, .rat q => pack_L (ratTrunc (q * f))
  | .scaledMulU f, .rat q => pack_L (ratTrunc (q / f))
  | _, _ => .error .typeError

/-- One register: `name`, `num`, and the codec closure pair (tagged). -/
structure Register where
  name : String
  num : Nat
  codec : Codec
deriving DecidableEq, Repr

/-- The `addr` property: `(2*self.num, 2*self.num+1)`, computed, not stored. -/
def Register.addr (r : Register) : Nat × Nat := (2 * r.num, 2 * r.num + 1)

/-- `Register.__eq__`: equality compares only `num`. -/
def Register.eq (r1 r2 : Register) : Bool := r1.num == r2.num

/-- CPython's `hash` on a non-negative machine-sized int: reduction modulo the
Mersenne prime `2^61 - 1`. -/
def pyIntHash (n : Nat) : Nat := n % (2 ^ 61 - 1)

/-- `Register.__hash__`: `hash(self.num)`. -/
def Register.pyHash (r : Register) : Nat := pyIntHash r.num

/-- `register.decode(lo, hi)`. -/
def Register.decode (r : Register) (lo hi : Nat) : Except PyErr Value :=
  r.codec.decode lo hi

/-- `register.encode(x)`. -/
def Register.encode (r : Register) (v : Value) : Except PyErr (Nat × Nat) :=
  r.codec.encode v

/-- Register `MODE_REG` (special codec), exported as a module-level name. -/
def MODE_REG : Register := Register.mk "MODE_REG" 2 .mode

/-- Register `P_SOLL` (special codec), exported as a module-level name. -/
def P_SOLL : Register := Register.mk "P_SOLL" 3 .rawS

/-- Register `P_NEW` (special codec), exported as a module-level name. -/
def P_NEW : Register := Register.mk "P_NEW" 4 .rawS

/-- Register `V_SOLL` (special codec), exported as a module-level name. -/
def V_SOLL : Register := Register.mk "V_SOLL" 5 (.scaledDivS (Rat.mk' 8658 3125))

/-- Register `A_SOLL` (special codec), exported as a module-level name. -/
def A_SOLL : Register := Register.mk "A_SOLL" 6 (.scaledDivS (Rat.mk' 3598133 1000000000))

/-- Register `T_SOLL` (special codec), exported as a module-level name. -/
def T_SOLL : Register := Register.mk "T_SOLL" 7 (.scaledDivU (Rat.mk' 341 1))

/-- Register `P_IST` (special codec), exported as a module-level name. -/
def P_IST : Register := Register.mk "P_IST" 10 .rawS

/-- Register `V_IST_16` (special codec), exported as a module-level name. -/
def V_IST_16 : Register := Register.mk "V_IST_16" 11 (.scaledDivS (Rat.mk' 8658 3125))

/-- Register `V_IST` (special codec), exported as a module-level name. -/
def V_IST : Register := Register.mk "V_IST" 12 (.scaledDivS (Rat.mk' 4329 25000))

/-- Register `MIN_P_IST` (special codec), exported as a module-level name. -/
def MIN_P_IST : Register := Register.mk "MIN_P_IST" 28 .rawS

/-- Register `MAX_P_IST` (special codec), exported as a module-level name. -/
def MAX_P_IST : Register := Register.mk "MAX_P_IST" 30 .rawS

/-- Register `ERR_STAT` (special codec), exported as a module-level name. -/
def ERR_STAT : Register := Register.mk "ERR_STAT" 35 .bitfield

/-- Register `U_BUS` (special codec), exported as a module-level name. -/
def U_BUS : Register := Register.mk "U_BUS" 198 (.scaledMulU (Rat.mk' 111 125))

/-- `all_registers`: the fixed register table from the source, in source order
(register numbers 1-149 and 155-231; 0 and 150-154 are reserved). -/
def all_registers : List Register := [
  Register.mk "PROG_VERSION" 1 .rawU,
  MODE_REG,
  P_SOLL,
  P_NEW,
  V_SOLL,
  A_SOLL,
  T_SOLL,
  Register.mk "P_FNC" 8 .rawU,
  Register.mk "INDEX_OFFSET" 9 .rawU,
  P_IST,
  V_IST_16,
  V_IST,
  Register.mk "KVOUT" 13 .rawU,
  Register.mk "GEARF1" 14 .rawU,
  Register.mk "GEARF2" 15 .rawU,
  Register.mk "I2T" 16 .rawU,
  Register.mk "I2TLIM" 17 .rawU,
  Register.mk "UIT" 18 .rawU,
  Register.mk "UITLIM" 19 .rawU,
  Register.mk "FLWERR" 20 .rawU,
  Register.mk "U_24V" 21 .rawU,
  Register.mk "FLWERRMAX" 22 .rawU,
  Register.mk "UV_HANDLE" 23 .rawU,
  Register.mk "FNCERR" 24 .rawU,
  Register.mk "P_IST_TURNTAB" 25 .rawU,
  Register.mk "FNCERRMAX" 26 .rawU,
  Register.mk "TURNTAB_COUNT" 27 .rawU,
  MIN_P_IST,
  Register.mk "DEGC" 29 .rawU,
  MAX_P_IST,
  Register.mk "DEGCMAX" 31 .rawU,
  Register.mk "ACC_EMERG" 32 .rawU,
  Register.mk "INPOSWIN" 33 .rawU,
  Register.mk "INPOSCNT" 34 .rawU,
  ERR_STAT,
  Register.mk "CNTRL_BITS" 36 .rawU,
  Register.mk "START_MODE" 37 .rawU,
  Register.mk "P_HOME" 38 .rawU,
  Register.mk "HW_SETUP" 39 .rawU,
  Register.mk "V_HOME" 40 .rawU,
  Register.mk "T_HOME" 41 .rawU,
  Register.mk "HOME_MODE" 42 .rawU,
  Register.mk "P_REG_P" 43 .rawU,
  Register.mk "V_REG_P" 44 .rawU,
  Register.mk "A_REG_P" 45 .rawU,
  Register.mk "T_REG_P" 46 .rawU,
  Register.mk "L_REG_P" 47 .rawU,
  Register.mk "Z_REG_P" 48 .rawU,
  Register.mk "POS0" 49 .rawU,
  Register.mk "CAPCOM0" 50 .rawU,
  Register.mk "POS1" 51 .rawU,
  Register.mk "CAPCOM1" 52 .rawU,
  Register.mk "POS2" 53 .rawU,
  Register.mk "CAPCOM2" 54 .rawU,
  Register.mk "POS3" 55 .rawU,
  Register.mk "CAPCOM3" 56 .rawU,
  Register.mk "POS4" 57 .rawU,
  Register.mk "CAPCOM4" 58 .rawU,
  Register.mk "POS5" 59 .rawU,
  Register.mk "CAPCOM5" 60 .rawU,
  Register.mk "POS6" 61 .rawU,
  Register.mk "CAPCOM6" 62 .rawU,
  Register.mk "POS7" 63 .rawU,
  Register.mk "CAPCOM7" 64 .rawU,
  Register.mk "VEL0" 65 .rawU,
  Register.mk "VEL1" 66 .rawU,
  Register.mk "VEL2" 67 .rawU,
  Register.mk "VEL3" 68 .rawU,
  Register.mk "VEL4" 69 .rawU,
  Register.mk "VEL5" 70 .rawU,
  Register.mk "VEL6" 71 .rawU,
  Register.mk "VEL7" 72 .rawU,
  Register.mk "ACC0" 73 .rawU,
  Register.mk "ACC1" 74 .rawU,
  Register.mk "ACC2" 75 .rawU,
  Register.mk "ACC3" 76 .rawU,
  Register.mk "TQ0" 77 .rawU,
  Register.mk "TQ1" 78 .rawU,
  Register.mk "TQ2" 79 .rawU,
  Register.mk "TQ3" 80 .rawU,
  Register.mk "LOAD0" 81 .rawU,
  Register.mk "LOAD1" 82 .rawU,
  Register.mk "LOAD2" 83 .rawU,
  Register.mk "LOAD3" 84 .rawU,
  Register.mk "ZERO0" 85 .rawU,
  Register.mk "ZERO1" 86 .rawU,
  Register.mk "ZERO2" 87 .rawU,
  Register.mk "ZERO3" 88 .rawU,
  Register.mk "MODE0" 89 .rawU,
  Register.mk "MODE1" 90 .rawU,
  Register.mk "MODE2" 91 .rawU,
  Register.mk "MODE3" 92 .rawU,
  Register.mk "HWI0" 93 .rawU,
  Register.mk "HWI1" 94 .rawU,
  Register.mk "HWI2" 95 .rawU,
  Register.mk "HWI3" 96 .rawU,
  Register.mk "HWI4" 97 .rawU,
  Register.mk "HWI5" 98 .rawU,
  Register.mk "HWI6" 99 .rawU,
  Register.mk "HWI70" 100 .rawU,
  Register.mk "HWI80" 101 .rawU,
  Register.mk "HWI90" 102 .rawU,
  Register.mk "HWI100" 103 .rawU,
  Register.mk "HWI110" 104 .rawU,
  Register.mk "MAC00_TYP0" 105 .rawU,
  Register.mk "MAC00_10" 106 .rawU,
  Register.mk "MAC00_20" 107 .rawU,
  Register.mk "MAC00_30" 108 .rawU,
  Register.mk "MAC00_40" 109 .rawU,
  Register.mk "MAC00_51" 110 .rawU,
  Register.mk "MAC00_61" 111 .rawU,
  Register.mk "MAC00_71" 112 .rawU,
  Register.mk "MAC00_81" 113 .rawU,
  Register.mk "MAC00_91" 114 .rawU,
  Register.mk "MAC00_101" 115 .rawU,
  Register.mk "MAC00_111" 116 .rawU,
  Register.mk "MAC00_121" 117 .rawU,
  Register.mk "MAC00_131" 118 .rawU,
  Register.mk "MAC00_141" 119 .rawU,
  Register.mk "MAC00_152" 120 .rawU,
  Register.mk "KFF5" 121 .rawU,
  Register.mk "KFF4" 122 .rawU,
  Register.mk "KFF" 123 .rawU,
  Register.mk "KFF2" 124 .rawU,
  Register.mk "KFF1" 125 .rawU,
  Register.mk "KFF0" 126 .rawU,
  Register.mk "KVFX6" 127 .rawU,
  Register.mk "KVFX5" 128 .rawU,
  Register.mk "KVFX4" 129 .rawU,
  Register.mk "KVFX3" 130 .rawU,
  Register.mk "KVFX2" 131 .rawU,
  Register.mk "KVFX1" 132 .rawU,
  Register.mk "KVFY5" 133 .rawU,
  Register.mk "KVFY" 134 .rawU,
  Register.mk "KVFY3" 135 .rawU,
  Register.mk "KVFY2" 136 .rawU,
  Register.mk "KVFY1" 137 .rawU,
  Register.mk "KVFY" 138 .rawU,
  Register.mk "KVB4" 139 .rawU,
  Register.mk "KVB3" 140 .rawU,
  Register.mk "KVB2" 141 .rawU,
  Register.mk "KVB1" 142 .rawU,
  Register.mk "KVB0" 143 .rawU,
  Register.mk "KIFX2" 144 .rawU,
  Register.mk "KIFX1" 145 .rawU,
  Register.mk "KIFY1" 146 .rawU,
  Register.mk "KIFY0" 147 .rawU,
  Register.mk "KIB1" 148 .rawU,
  Register.mk "KIB0" 149 .rawU,
  Register.mk "ID_RESERVED" 155 .rawU,
  Register.mk "S_ORDER" 156 .rawU,
  Register.mk "OUTLOOPDIV" 157 .rawU,
  Register.mk "SAMPLE1" 158 .rawU,
  Register.mk "SAMPLE2" 159 .rawU,
  Register.mk "SAMPLE3" 160 .rawU,
  Register.mk "SAMPLE4" 161 .rawU,
  Register.mk "REC_CNT" 162 .rawU,
  Register.mk "V_EXT" 163 .rawU,
  Register.mk "GV_EXT" 164 .rawU,
  Register.mk "G_FNC" 165 .rawU,
  Register.mk "FNC_OUT" 166 .rawU,
  Register.mk "FF_OUT" 167 .rawU,
  Register.mk "VB_OUT" 168 .rawU,
  Register.mk "VF_OUT" 169 .rawU,
  Register.mk "ANINP" 170 .rawU,
  Register.mk "ANINP_OFFSET" 171 .rawU,
  Register.mk "ELDEG_OFFSET" 172 .rawU,
  Register.mk "PHASE_COMP" 173 .rawU,
  Register.mk "AMPLITUDE" 174 .rawU,
  Register.mk "MAN_I_NOM" 175 .rawU,
  Register.mk "MAN_ALPHA" 176 .rawU,
  Register.mk "UMEAS" 177 .rawU,
  Register.mk "I_NOM" 178 .rawU,
  Register.mk "PHI_SOLL" 179 .rawU,
  Register.mk "IA_SOLL" 180 .rawU,
  Register.mk "IB_SOLL" 181 .rawU,
  Register.mk "IC_SOLL" 182 .rawU,
  Register.mk "IA_IST" 183 .rawU,
  Register.mk "IB_IST" 184 .rawU,
  Register.mk "IC_IST" 185 .rawU,
  Register.mk "IA_OFFSET" 186 .rawU,
  Register.mk "IB_OFFSET" 187 .rawU,
  Register.mk "KIA" 188 .rawU,
  Register.mk "KIB" 189 .rawU,
  Register.mk "ELDEG_IST" 190 .rawU,
  Register.mk "V_ELDEG" 191 .rawU,
  Register.mk "UA_VAL" 192 .rawU,
  Register.mk "UB_VAL" 193 .rawU,
  Register.mk "UC_VAL" 194 .rawU,
  Register.mk "EMK_A" 195 .rawU,
  Register.mk "EMK_B" 196 .rawU,
  Register.mk "EMK_C" 197 .rawU,
  U_BUS,
  Register.mk "U_BUS_OFFSET" 199 .rawU,
  Register.mk "TC0_CV1" 200 .rawU,
  Register.mk "TC0_CV2" 201 .rawU,
  Register.mk "MY_ADDR" 202 .rawU,
  Register.mk "MOTOR_TYPE" 203 .rawU,
  Register.mk "SERIAL_NUMBER" 204 .rawU,
  Register.mk "HW_VERSION" 205 .rawU,
  Register.mk "CHKSUM" 206 .rawU,
  Register.mk "USEROUTVAL" 207 .rawU,
  Register.mk "COMM_ERRS" 208 .rawU,
  Register.mk "INDEX_IST" 209 .rawU,
  Register.mk "HW_PLIM" 210 .rawU,
  Register.mk "COMMAND_REG" 211 .rawU,
  Register.mk "UART0_SETUP" 212 .rawU,
  Register.mk "UART1_SETUP" 213 .rawU,
  Register.mk "EXTENC_BITS" 214 .rawU,
  Register.mk "INPUT_LEVELS" 215 .rawU,
  Register.mk "ANINP1" 216 .rawU,
  Register.mk "ANINP1_OFFSET" 217 .rawU,
  Register.mk "ANINP2" 218 .rawU,
  Register.mk "ANINP2_OFFSET" 219 .rawU,
  Register.mk "ANINP3" 220 .rawU,
  Register.mk "ANINP3_OFFSET" 221 .rawU,
  Register.mk "IOSETUP" 222 .rawU,
  Register.mk "ANOUT1" 223 .rawU,
  Register.mk "ANOUT1_OFFSET" 224 .rawU,
  Register.mk "P_OFFSET" 225 .rawU,
  Register.mk "P_MULTITURN" 226 .rawU,
  Register.mk "AIFILT_MAXSLOPE" 227 .rawU,
  Register.mk "AIFILT_FILTFACT" 228 .rawU,
  Register.mk "P_QUICK" 229 .rawU,
  Register.mk "XREG_ADDR" 230 .rawU,
  Register.mk "XREG_DATA" 231 .rawU
]

/-- The stored codec factors equal the decimal literals written in the source
exactly: `2.77056` (V_SOLL), `3.598133e-3` (A_SOLL), `341` (T_SOLL),
`0.17316 * 16` (V_IST_16), `0.17316` (V_IST) and `0.888` (U_BUS). -/
theorem factor_literals :
    Rat.mk' 8658 3125 = (2.77056 : Rat) ∧
    Rat.mk' 3598133 1000000000 = (3.598133e-3 : Rat) ∧
    Rat.mk' 341 1 = (341 : Rat) ∧
    Rat.mk' 8658 3125 = (0.17316 : Rat) * 16 ∧
    Rat.mk' 4329 25000 = (0.17316 : Rat) ∧
    Rat.mk' 111 125 = (0.888 : Rat) := by
  refine ⟨?_, ?_, ?_, ?_, ?_, ?_⟩ <;>
    norm_num [Rat.mk'_eq_divInt, Rat.divInt_eq_div]

/-- Default register for `List.getD`; the binary search below only indexes in
range on every path taken, so this default is never the result of a lookup. -/
def dummyReg : Register := Register.mk "PROG_VERSION" 1 .rawU

/-- `_registers_by_name` / `register_for_name(name)`: a Python dict built with
one insertion per table entry maps each name to the LAST entry inserted under
that name (hence the reversed search); a missing key raises `KeyError`. -/
def register_for_name (s : String) : Except PyErr Register :=
  match all_registers.reverse.find? (fun r => r.name == s) with
  | some r => .ok r
  | none => .error .keyError

/-- The `while lo < hi` binary-search loop of `register_for_address`, with a
fuel argument for structural recursion.  Each iteration strictly shrinks
`hi - lo`, so any fuel of at least `hi - lo + 1` returns the loop's exit value
of `lo`; the caller passes `all_registers.length + 1`. -/
def rfa_go (addr : Int) : Nat → Nat → Nat → Nat
  | 0, lo, _ => lo
  | fuel + 1, lo, hi =>
    if lo < hi then
      let mid := (lo + hi) / 2
      if ((all_registers.getD mid dummyReg).addr.2 : Int) < addr then
        rfa_go addr fuel (mid + 1) hi
      else
        rfa_go addr fuel lo mid
    else lo

/-- `register_for_address(addr)`: binary search for the first table entry whose
upper word address `addr[-1]` is not below `addr`.  The Python code then
evaluates `all_registers[lo]`, which raises `IndexError` when `lo` equals the
table length, and otherwise raises `ValueError('Register not found for this
address')` when `addr` is in neither word of that entry's address pair. -/
def register_for_address (addr : Int) : Except PyErr Register :=
  match all_registers.get? (rfa_go addr (all_registers.length + 1) 0 all_registers.length) with
  | none => .error .indexError
  | some r =>
      if addr = (r.addr.1 : Int) ∨ addr = (r.addr.2 : Int) then .ok r
      else .error .valueError

/-! ## Helper lemmas for the binary-search analysis -/

/-- Every table entry has a register number between 1 and 231. -/
theorem num_bounds : ∀ r ∈ all_registers, 1 ≤ r.num ∧ r.num ≤ 231 := by decide

/-- The register consulted at any probe index (in or out of range) has a
number between 1 and 231, hence upper word address between 3 and 463. -/
theorem getD_num_bounds (i : Nat) :
    1 ≤ (all_registers.getD i dummyReg).num ∧
    (all_registers.getD i dummyReg).num ≤ 231 := by
  by_cases h : i < all_registers.length
  · rw [List.getD_eq_getElem?_getD, List.getElem?_eq_getElem h, Option.getD_some]
    exact num_bounds _ (List.getElem_mem h)
  · rw [List.getD_eq_getElem?_getD, List.getElem?_eq_none (Nat.le_of_not_lt h),
      Option.getD_none]
    decide

/-- For an address below every span (`addr < 2 ≤ 3 ≤` every upper bound), the
comparison `addr[-1] < addr` is false at every probe, so the loop keeps moving
`hi` down and exits with the initial `lo`. -/
theorem rfa_go_low (addr : Int) (ha : addr < 2) :
    ∀ fuel lo hi, rfa_go addr fuel lo hi = lo := by
  intro fuel
  induction fuel with
  | zero => intro lo hi; rfl
  | succ n ih =>
      intro lo hi
      simp only [rfa_go]
      split
      · rw [if_neg, ih]
        have h1 := (getD_num_bounds ((lo + hi) / 2)).1
        simp only [Register.addr]
        omega
      · rfl

/-- For an address above every span (`addr > 463 ≥` every upper bound), the
comparison `addr[-1] < addr` is true at every probe, so the loop keeps moving
`lo` up and exits at `hi`, provided the fuel covers the iteration count. -/
theorem rfa_go_high (addr : Int) (ha : 463 < addr) :
    ∀ fuel lo hi, lo ≤ hi → hi - lo ≤ fuel → rfa_go addr fuel lo hi = hi := by
  intro fuel
  induction fuel with
  | zero =>
      intro lo hi h1 h2
      have h3 : lo = hi := by omega
      subst h3; rfl
  | succ n ih =>
      intro lo hi h1 h2
      simp only [rfa_go]
      split
      next hlt =>
        rw [if_pos, ih]
        · omega
        · omega
        · have h4 := (getD_num_bounds ((lo + hi) / 2)).2
          simp only [Register.addr]
          omega
      next hlt => omega

/-! ## Claim theorems -/

/-- Claim C1 (code-bug evaluation): the required round trip
`implode_bits(explode_bits(x, n)) == x` already fails at `x = 1`, `n = 4`:
`explode_bits(1, 4) = [1, 0, 0, 0]` but `implode_bits` folds with
`functools.reduce` and no initializer, so the first (least-significant) bit
only ever gets shifted right and the result is `0`, not `1`. -/
theorem implode_explode_defect :
    explode_bits 1 4 = [1, 0, 0, 0] ∧
    implode_bits (explode_bits 1 4) = some 0 ∧
    some (0 : Nat) ≠ some 1 := by decide

/-- Claim C3 (code-bug evaluation): the table entries at positions 133 and 137
are distinct registers (numbers 134 and 138) that share the name "KVFY", so
register names are not unique and the name-keyed dict maps "KVFY" only to the
later entry (number 138), silently shadowing number 134. -/
theorem duplicate_name_KVFY :
    (all_registers.getD 133 dummyReg).name = "KVFY" ∧
    (all_registers.getD 137 dummyReg).name = "KVFY" ∧
    (all_registers.getD 133 dummyReg).num = 134 ∧
    (all_registers.getD 137 dummyReg).num = 138 ∧
    register_for_name "KVFY" = .ok (all_registers.getD 137 dummyReg) := by decide

/-- Claim C8: for every register value, the `addr` property is the pair
`(2*num, 2*num+1)`, computed from `num` by this formula and not stored. -/
theorem addr_derived (r : Register) : r.addr = (2 * r.num, 2 * r.num + 1) := rfl

/-- Claim C9: the register numbers of the table, in order, are exactly
`1..149` followed by `155..231` (226 entries, no duplicates, the reserved
numbers 0 and 150-154 absent), and the sequence is strictly increasing. -/
theorem table_nums_exact :
    all_registers.map Register.num = List.range' 1 149 1 ++ List.range' 155 77 1 ∧
    List.Pairwise (fun a b => a < b) (all_registers.map Register.num) := by
  constructor <;> decide

/-- Claim C10: `Register.__eq__` compares only the `num` fields (names and
codecs are ignored), and `Register.__hash__` is `hash(self.num)`. -/
theorem register_eq_hash_num (r1 r2 : Register) :
    (Register.eq r1 r2 = true ↔ r1.num = r2.num) ∧ r1.pyHash = pyIntHash r1.num :=
  ⟨by simp [Register.eq], rfl⟩

/-- Claim C2 (counterexample): address 464 lies beyond the table's last span
(the final register, number 231, occupies words 462 and 463), yet the lookup
fails with `IndexError` — the binary search exits with `lo` equal to the table
length and `all_registers[lo]` is evaluated before the membership check — not
with the `UnknownRegister` `ValueError` the claim asserts for every
out-of-span address. -/
theorem address_above_table_index_error :
    register_for_address 464 = .error .indexError ∧
    all_registers.all
      (fun r => !(464 == 2 * r.num) && !(464 == 2 * r.num + 1)) = true ∧
    PyErr.indexError ≠ PyErr.valueError := by decide

/-- Claim C2 (amended): for an address in the interior reserved gap
(words 300-309, register numbers 150-154) or below the table (`addr < 2`),
`register_for_address` raises the `UnknownRegister` `ValueError`; for an
address above the table (`addr > 463`) it instead raises `IndexError` from
the out-of-range list access `all_registers[lo]`. -/
theorem register_for_address_outside_spans (addr : Int)
    (h : addr < 2 ∨ (300 ≤ addr ∧ addr ≤ 309) ∨ 463 < addr) :
    register_for_address addr =
      .error (if 463 < addr then .indexError else .valueError) := by
  rcases h with h | h | h
  · rw [if_neg (by omega)]
    show register_for_address addr = .error .valueError
    unfold register_for_address
    rw [rfa_go_low addr (by omega)]
    rw [show all_registers.get? 0 = some (Register.mk "PROG_VERSION" 1 .rawU) from rfl]
    show (if addr = ((2 : Nat) : Int) ∨ addr = ((3 : Nat) : Int) then
        Except.ok (Register.mk "PROG_VERSION" 1 .rawU) else Except.error PyErr.valueError) =
      Except.error PyErr.valueError
    rw [if_neg]
    rintro (h1 | h1) <;> omega
  · have h10 : addr = 300 ∨ addr = 301 ∨ addr = 302 ∨ addr = 303 ∨ addr = 304 ∨
        addr = 305 ∨ addr = 306 ∨ addr = 307 ∨ addr = 308 ∨ addr = 309 := by omega
    rcases h10 with h1 | h1 | h1 | h1 | h1 | h1 | h1 | h1 | h1 | h1 <;> subst h1 <;> decide
  · rw [if_pos h]
    unfold register_for_address
    rw [rfa_go_high addr h _ _ _ (by omega) (by omega)]
    rw [show all_registers.get? all_registers.length = none from
      List.get?_eq_none.mpr (Nat.le_refl _)]

/-- Witness for the amended C2 theorem: the gap address 305 (register number
152, reserved) fails with `ValueError`. -/
theorem register_for_address_outside_spans_w :
    register_for_address 305 = .error .valueError := by
  have h := register_for_address_outside_spans 305 (by omega)
  norm_num at h
  exact h

/-- Claim C5: for every register in the table, looking up either of its two
word addresses (`2*num` and `2*num + 1`) returns that very register. -/
theorem register_for_address_roundtrip :
    ∀ r ∈ all_registers,
      register_for_address (2 * r.num) = .ok r ∧
      register_for_address (2 * r.num + 1) = .ok r := by decide

/-- Witness for C5 at the MODE_REG entry (number 2, words 4 and 5). -/
theorem register_for_address_roundtrip_w :
    register_for_address 4 = .ok MODE_REG ∧ register_for_address 5 = .ok MODE_REG := by
  exact register_for_address_roundtrip MODE_REG (by decide)

/-- Claim C6: for both word-codec kinds, unpack is an exact two-sided inverse
of pack: packing any representable 32-bit value (unsigned for `'L'`, signed
two's-complement for `'l'`) and unpacking the word pair returns the value, and
unpacking any pair of unsigned 16-bit words and packing the result returns the
same pair. -/
theorem pack_unpack_inverse :
    (∀ x : Nat, x < 2 ^ 32 →
      (pack_L x).map (fun w => unpack_L w.1 w.2) = .ok x) ∧
    (∀ x : Int, -(2 ^ 31) ≤ x → x < 2 ^ 31 →
      (pack_l x).map (fun w => unpack_l w.1 w.2) = .ok x) ∧
    (∀ lo hi : Nat, lo < 2 ^ 16 → hi < 2 ^ 16 →
      pack_L (unpack_L lo hi) = .ok (lo, hi)) ∧
    (∀ lo hi : Nat, lo < 2 ^ 16 → hi < 2 ^ 16 →
      pack_l (unpack_l lo hi) = .ok (lo, hi)) := by
  refine ⟨?_, ?_, ?_, ?_⟩
  · intro x hx
    simp only [pack_L]
    rw [if_pos (by omega)]
    simp only [Except.map, unpack_L, Int.toNat_natCast, Except.ok.injEq]
    omega
  · intro x h1 h2
    simp only [pack_l]
    rw [if_pos (by omega)]
    simp only [Except.map, unpack_l, Except.ok.injEq]
    split <;> omega
  · intro lo hi h1 h2
    simp only [pack_L, unpack_L]
    rw [if_pos (by omega)]
    simp only [Except.ok.injEq, Prod.mk.injEq, Int.toNat_natCast]
    omega
  · intro lo hi h1 h2
    simp only [pack_l, unpack_l]
    split
    · rw [if_pos (by omega)]
      simp only [Except.ok.injEq, Prod.mk.injEq]
      omega
    · rw [if_pos (by omega)]
      simp only [Except.ok.injEq, Prod.mk.injEq]
      omega

/-- Witness for C6 at concrete inputs: unsigned 3000000000, signed -5, and
the word pair (7, 9) under both kinds. -/
theorem pack_unpack_inverse_w :
    (pack_L (3000000000 : Nat)).map (fun w => unpack_L w.1 w.2) = .ok 3000000000 ∧
    (pack_l (-5)).map (fun w => unpack_l w.1 w.2) = .ok (-5) ∧
    pack_L (unpack_L 7 9) = .ok (7, 9) ∧
    pack_l (unpack_l 7 9) = .ok (7, 9) :=
  ⟨pack_unpack_inverse.1 3000000000 (by norm_num),
   pack_unpack_inverse.2.1 (-5) (by norm_num) (by norm_num),
   pack_unpack_inverse.2.2.1 7 9 (by norm_num) (by norm_num),
   pack_unpack_inverse.2.2.2 7 9 (by norm_num) (by norm_num)⟩

/-- Claim C7: the register resolved by name "MODE_REG" decodes the word pair
for raw value 1 to `Mode.VELOCITY`, and decoding fails with the
`InvalidMode` `ValueError` for every word pair whose raw unsigned value is
outside {0, 1, 2, 11} — in particular raw value 5. -/
theorem mode_reg_decode (r : Register)
    (hr : register_for_name "MODE_REG" = .ok r) :
    r.decode 1 0 = .ok (.mode .VELOCITY) ∧
    r.decode 5 0 = .error .valueError ∧
    ∀ lo hi : Nat, unpack_L lo hi ≠ 0 → unpack_L lo hi ≠ 1 →
      unpack_L lo hi ≠ 2 → unpack_L lo hi ≠ 11 →
      r.decode lo hi = .error .valueError := by
  have h : register_for_name "MODE_REG" = .ok MODE_REG := by decide
  rw [h] at hr
  injection hr with h2
  subst h2
  refine ⟨by decide, by decide, ?_⟩
  intro lo hi h0 h1 h2 h11
  show Codec.decode .mode lo hi = .error .valueError
  simp only [Codec.decode, MODE.ofVal, if_neg h0, if_neg h1, if_neg h2, if_neg h11]

/-- Witness for C7: decoding raw value 1 gives VELOCITY and raw value 7
fails with `ValueError`. -/
theorem mode_reg_decode_w :
    MODE_REG.decode 1 0 = .ok (.mode .VELOCITY) ∧
    MODE_REG.decode 7 0 = .error .valueError := by
  refine ⟨(mode_reg_decode MODE_REG (by decide)).1, ?_⟩
  exact (mode_reg_decode MODE_REG (by decide)).2.2 7 0
    (by decide) (by decide) (by decide) (by decide)

/-- Claim C4 (counterexample): at the velocity register V_SOLL with physical
value 1, the code packs `int(1 * 2.77056) = 2` (truncation toward zero), while
rounding to the nearest representable integer, as the claim states, would pack
3; so encode does not round to nearest. -/
theorem scaled_encode_not_round :
    V_SOLL.encode (.rat 1) = .ok (2, 0) ∧
    pack_l (ratRoundNearest (1 * Rat.mk' 8658 3125)) = .ok (3, 0) ∧
    ((2, 0) : Nat × Nat) ≠ (3, 0) := by
  refine ⟨?_, ?_, by decide⟩
  · show pack_l (ratTrunc ((1 : Rat) * Rat.mk' 8658 3125)) = .ok (2, 0)
    have h1 : ratTrunc ((1 : Rat) * Rat.mk' 8658 3125) = 2 := by
      rw [one_mul]
      unfold ratTrunc
      rw [if_neg (by decide)]
      decide
    rw [h1]
    decide
  · have h2 : ratRoundNearest ((1 : Rat) * Rat.mk' 8658 3125) = 3 := by
      unfold ratRoundNearest
      rw [one_mul, Int.floor_eq_iff]
      constructor
      · norm_num [Rat.mk'_eq_divInt, Rat.divInt_eq_div]
      · norm_num [Rat.mk'_eq_divInt, Rat.divInt_eq_div]
    rw [h2]
    decide

/-- Claim C4 (amended): for every scaled register (V_SOLL, A_SOLL, T_SOLL,
V_IST_16, V_IST, U_BUS), encode multiplies the physical value by the
register's fixed factor (U_BUS divides by its display factor 0.888, i.e.
multiplies by its inverse) and then truncates toward zero with Python's
`int()` — not round-to-nearest — before packing; for a nonnegative product
the packed integer is its floor, within 1 below the exact product. -/
theorem scaled_encode_truncates (q : Rat) :
    V_SOLL.encode (.rat q) = pack_l (ratTrunc (q * Rat.mk' 8658 3125)) ∧
    A_SOLL.encode (.rat q) = pack_l (ratTrunc (q * Rat.mk' 3598133 1000000000)) ∧
    T_SOLL.encode (.rat q) = pack_L (ratTrunc (q * Rat.mk' 341 1)) ∧
    V_IST_16.encode (.rat q) = pack_l (ratTrunc (q * Rat.mk' 8658 3125)) ∧
    V_IST.encode (.rat q) = pack_l (ratTrunc (q * Rat.mk' 4329 25000)) ∧
    U_BUS.encode (.rat q) = pack_L (ratTrunc (q / Rat.mk' 111 125)) ∧
    (∀ p : Rat, 0 ≤ p → (ratTrunc p : Rat) ≤ p ∧ p - 1 < (ratTrunc p : Rat)) := by
  refine ⟨rfl, rfl, rfl, rfl, rfl, rfl, ?_⟩
  intro p hp
  unfold ratTrunc
  rw [if_neg (not_lt.mpr hp)]
  exact ⟨Int.floor_le p, Int.sub_one_lt_floor p⟩

/-- Witness for the amended C4 theorem: the V_SOLL encode equation at
physical value 1 and the truncation bounds at product 5. -/
theorem scaled_encode_truncates_w :
    V_SOLL.encode (.rat 1) = pack_l (ratTrunc (1 * Rat.mk' 8658 3125)) ∧
    (ratTrunc (5 : Rat) : Rat) ≤ 5 ∧ (5 : Rat) - 1 < (ratTrunc (5 : Rat) : Rat) :=
  ⟨(scaled_encode_truncates 1).1,
   ((scaled_encode_truncates 1).2.2.2.2.2.2 5 (by norm_num)).1,
   ((scaled_encode_truncates 1).2.2.2.2.2.2 5 (by norm_num)).2⟩

end Mac400
